import Mathlib

/-!
Verification development for the ezgl renderer (graphics.cpp, rectangle.hpp).

Doubles are modelled as rationals (ℚ): all geometry in the claims is
arithmetic comparison, min/max and affine combination, which the rational
model reflects exactly.  Calls into the external cairo drawing API are
modelled as a list of emitted commands (`cairo_cmd`); a renderer member
function becomes a Lean function returning the (possibly updated) renderer
together with the commands it issued.  The preprocessor branch
`EZGL_USE_X11` is not taken (the macro is not defined in a default build),
so the cairo code paths are embedded.
-/

set_option allowUnsafeReducibility true

-- Batteries marks the rational arithmetic operations irreducible, which
-- blocks `decide` on concrete evaluations; restore default reducibility.
attribute [semireducible] Rat.add Rat.mul Rat.sub Rat.div Rat.neg Rat.inv

namespace ezgl

/-- Modelled from the spec: `point2d` (point.hpp is not in src; the struct is
a pair of double coordinates used with member access `.x`/`.y` throughout
graphics.cpp). -/
structure point2d where
  x : ℚ
  y : ℚ
deriving DecidableEq, Repr

/-- Modelled from the spec: componentwise point addition (point.hpp not in src). -/
instance : Add point2d := ⟨fun a b => ⟨a.x + b.x, a.y + b.y⟩⟩

/-- Modelled from the spec: componentwise point subtraction (point.hpp not in src). -/
instance : Sub point2d := ⟨fun a b => ⟨a.x - b.x, a.y - b.y⟩⟩

/-- Modelled from the spec: componentwise point multiplication (point.hpp not in
src); used in get_visible_world as `screen.bottom_left() * world_scale_factor`. -/
instance : Mul point2d := ⟨fun a b => ⟨a.x * b.x, a.y * b.y⟩⟩

/-- Modelled from the spec: `point2d::offset` moves the point by the given
amounts (point.hpp not in src; used by the rectangle constructor). -/
def point2d.offset (p : point2d) (dx dy : ℚ) : point2d :=
  ⟨p.x + dx, p.y + dy⟩

/-- `ezgl::rectangle`: two diagonally opposite points (rectangle.hpp). -/
structure rectangle where
  m_first : point2d
  m_second : point2d
deriving DecidableEq, Repr

/-- `rectangle(point2d origin, point2d top_right)` (rectangle.hpp line 18). -/
def mk_rectangle (origin top_right : point2d) : rectangle :=
  ⟨origin, top_right⟩

/-- `rectangle(point2d origin, double width, double height)` (rectangle.hpp
line 25): the second corner is the origin offset by width and height. -/
def mk_rectangle_wh (origin : point2d) (width height : ℚ) : rectangle :=
  ⟨origin, origin.offset width height⟩

/-- `rectangle::left`: minimum x-coordinate. -/
def rectangle.left (r : rectangle) : ℚ :=
  min r.m_first.x r.m_second.x

/-- `rectangle::right`: maximum x-coordinate. -/
def rectangle.right (r : rectangle) : ℚ :=
  max r.m_first.x r.m_second.x

/-- `rectangle::bottom`: minimum y-coordinate. -/
def rectangle.bottom (r : rectangle) : ℚ :=
  min r.m_first.y r.m_second.y

/-- `rectangle::top`: maximum y-coordinate. -/
def rectangle.top (r : rectangle) : ℚ :=
  max r.m_first.y r.m_second.y

/-- `rectangle::contains(double x, double y)` (rectangle.hpp line 65). -/
def rectangle.contains (r : rectangle) (x y : ℚ) : Bool :=
  if x < r.left ∨ r.right < x ∨ y < r.bottom ∨ r.top < y then false
  else true

/-- `rectangle::contains(point2d point)` (rectangle.hpp line 77). -/
def rectangle.contains_point (r : rectangle) (p : point2d) : Bool :=
  r.contains p.x p.y

/-- `rectangle::operator==` (rectangle.hpp line 94): memberwise comparison of
the two stored corner points. -/
def rectangle.eq (r rhs : rectangle) : Bool :=
  r.m_first = rhs.m_first ∧ r.m_second = rhs.m_second

/-- Modelled from the spec: `rectangle::bottom_left` corner accessor, used by
graphics.cpp but declared in a version of rectangle.hpp that is not in src. -/
def rectangle.bottom_left (r : rectangle) : point2d :=
  ⟨r.left, r.bottom⟩

/-- Modelled from the spec: `rectangle::top_right` corner accessor, used by
graphics.cpp but declared in a version of rectangle.hpp that is not in src. -/
def rectangle.top_right (r : rectangle) : point2d :=
  ⟨r.right, r.top⟩

/-- `ezgl::width` (rectangle.hpp line 115). -/
def width (r : rectangle) : ℚ :=
  r.right - r.left

/-- `ezgl::height` (rectangle.hpp line 123). -/
def height (r : rectangle) : ℚ :=
  r.top - r.bottom

/-- `ezgl::area` (rectangle.hpp line 132). -/
def area (r : rectangle) : ℚ :=
  width r * height r

/-- `ezgl::centre_x` (rectangle.hpp line 140). -/
def centre_x (r : rectangle) : ℚ :=
  (r.right + r.left) * (1 / 2)

/-- `ezgl::centre_y` (rectangle.hpp line 148). -/
def centre_y (r : rectangle) : ℚ :=
  (r.top + r.bottom) * (1 / 2)

/-- `ezgl::centre` (rectangle.hpp line 156). -/
def centre (r : rectangle) : point2d :=
  ⟨centre_x r, centre_y r⟩

/-- The renderer's coordinate system selector (`t_coordinate_system`). -/
inductive t_coordinate_system where
  | SCREEN
  | WORLD
deriving DecidableEq, Repr

export t_coordinate_system (SCREEN WORLD)

/-- Modelled from the spec: the `camera` (camera.hpp/cpp are not in src).
Only the accessors used by graphics.cpp are represented: the world
rectangle, the screen rectangle and the world scale factor. -/
structure camera where
  m_world : rectangle
  m_screen : rectangle
  m_world_scale_factor : point2d

/-- Modelled from the spec: `camera::get_world` accessor. -/
def camera.get_world (c : camera) : rectangle := c.m_world

/-- Modelled from the spec: `camera::get_screen` accessor. -/
def camera.get_screen (c : camera) : rectangle := c.m_screen

/-- Modelled from the spec: `camera::get_world_scale_factor` accessor. -/
def camera.get_world_scale_factor (c : camera) : point2d :=
  c.m_world_scale_factor

/-- The `ezgl::renderer` state visible to the embedded member functions:
the world-to-screen transform, the camera, the current coordinate system
and the text rotation angle.  The cairo handles carry no modelled state. -/
structure renderer where
  m_transform : point2d → point2d
  m_camera : camera
  current_coordinate_system : t_coordinate_system
  rotation_angle : ℚ

/-- `renderer::renderer` (graphics.cpp line 7): the constructor stores the
transform and camera and initialises `rotation_angle` to 0.  The in-class
default `current_coordinate_system = WORLD` comes from graphics.hpp, which
is not in src (modelled from the spec). -/
def renderer_new (transform : point2d → point2d) (cam : camera) : renderer :=
  { m_transform := transform
    m_camera := cam
    current_coordinate_system := WORLD
    rotation_angle := 0 }

/-- `renderer::set_coordinate_system` (graphics.cpp line 33). -/
def set_coordinate_system (r : renderer) (new_coordinate_system : t_coordinate_system) : renderer :=
  { r with current_coordinate_system := new_coordinate_system }

/-- `renderer::set_text_rotation` (graphics.cpp line 178): converts degrees
to radians and negates.  `M_PI` is passed as the parameter `pi_q`, the
rational standing for the double constant. -/
def set_text_rotation (pi_q : ℚ) (r : renderer) (degrees : ℚ) : renderer :=
  { r with rotation_angle := -degrees * pi_q / 180 }

/-- `renderer::get_visible_world` (graphics.cpp line 38): the camera's world
rectangle enlarged by the margin obtained from the screen origin. -/
def get_visible_world (r : renderer) : rectangle :=
  let world := r.m_camera.get_world
  let screen := r.m_camera.get_screen
  let margin := screen.bottom_left * r.m_camera.get_world_scale_factor
  ⟨world.bottom_left - margin, world.top_right + margin⟩

/-- `renderer::rectangle_off_screen` (graphics.cpp line 55). -/
def rectangle_off_screen (r : renderer) (rect : rectangle) : Bool :=
  if r.current_coordinate_system = SCREEN then false
  else
    let visible := get_visible_world r
    if rect.right < visible.left then true
    else if rect.left > visible.right then true
    else if rect.top < visible.bottom then true
    else if rect.bottom > visible.top then true
    else false

/-- A call into the external cairo drawing API, with its numeric arguments.
Each constructor corresponds to one `cairo_*` function invoked by
graphics.cpp. -/
inductive cairo_cmd where
  | move_to (x y : ℚ)
  | line_to (x y : ℚ)
  | close_path
  | stroke
  | fill
  | save
  | restore
  | scale (sx sy : ℚ)
  | new_path
  | arc (xc yc radius angle1 angle2 : ℚ)
  | arc_negative (xc yc radius angle1 angle2 : ℚ)
  | rotate (angle : ℚ)
  | show_text (text : String)
  | set_source_surface (x y : ℚ)
  | paint
deriving DecidableEq, Repr

/-- `renderer::draw_line` (graphics.cpp line 184): cull against the
bounding rectangle of the two endpoints, transform when in WORLD
coordinates, then move/line/stroke. -/
def draw_line (r : renderer) (start end_pt : point2d) : renderer × List cairo_cmd :=
  if rectangle_off_screen r ⟨start, end_pt⟩ then (r, [])
  else
    let start := if r.current_coordinate_system = WORLD then r.m_transform start else start
    let end_pt := if r.current_coordinate_system = WORLD then r.m_transform end_pt else end_pt
    (r, [.move_to start.x start.y, .line_to end_pt.x end_pt.y, .stroke])

/-- `renderer::draw_rectangle_path` (graphics.cpp line 445): transform the
two corners when in WORLD coordinates, trace the four edges, close the
path, then fill or stroke. -/
def draw_rectangle_path (r : renderer) (start end_pt : point2d) (fill_flag : Bool) :
    renderer × List cairo_cmd :=
  let start := if r.current_coordinate_system = WORLD then r.m_transform start else start
  let end_pt := if r.current_coordinate_system = WORLD then r.m_transform end_pt else end_pt
  (r, [.move_to start.x start.y, .line_to start.x end_pt.y, .line_to end_pt.x end_pt.y,
       .line_to end_pt.x start.y, .close_path, if fill_flag then .fill else .stroke])

/-- `renderer::draw_rectangle(point2d, point2d)` (graphics.cpp line 207). -/
def draw_rectangle (r : renderer) (start end_pt : point2d) : renderer × List cairo_cmd :=
  if rectangle_off_screen r ⟨start, end_pt⟩ then (r, [])
  else draw_rectangle_path r start end_pt false

/-- `renderer::draw_rectangle(point2d, double, double)` (graphics.cpp line 215). -/
def draw_rectangle_wh (r : renderer) (start : point2d) (w h : ℚ) : renderer × List cairo_cmd :=
  if rectangle_off_screen r ⟨start, ⟨start.x + w, start.y + h⟩⟩ then (r, [])
  else draw_rectangle_path r start ⟨start.x + w, start.y + h⟩ false

/-- `renderer::draw_rectangle(rectangle)` (graphics.cpp line 223). -/
def draw_rectangle_rect (r : renderer) (rect : rectangle) : renderer × List cairo_cmd :=
  if rectangle_off_screen r ⟨⟨rect.left, rect.bottom⟩, ⟨rect.right, rect.top⟩⟩ then (r, [])
  else draw_rectangle_path r ⟨rect.left, rect.bottom⟩ ⟨rect.right, rect.top⟩ false

/-- `renderer::fill_rectangle(point2d, point2d)` (graphics.cpp line 231). -/
def fill_rectangle (r : renderer) (start end_pt : point2d) : renderer × List cairo_cmd :=
  if rectangle_off_screen r ⟨start, end_pt⟩ then (r, [])
  else draw_rectangle_path r start end_pt true

/-- `renderer::fill_rectangle(point2d, double, double)` (graphics.cpp line 239). -/
def fill_rectangle_wh (r : renderer) (start : point2d) (w h : ℚ) : renderer × List cairo_cmd :=
  if rectangle_off_screen r ⟨start, ⟨start.x + w, start.y + h⟩⟩ then (r, [])
  else draw_rectangle_path r start ⟨start.x + w, start.y + h⟩ true

/-- `renderer::fill_rectangle(rectangle)` (graphics.cpp line 247). -/
def fill_rectangle_rect (r : renderer) (rect : rectangle) : renderer × List cairo_cmd :=
  if rectangle_off_screen r ⟨⟨rect.left, rect.bottom⟩, ⟨rect.right, rect.top⟩⟩ then (r, [])
  else draw_rectangle_path r ⟨rect.left, rect.bottom⟩ ⟨rect.right, rect.top⟩ true

/-- The containing rectangle of a polygon, as computed by the min/max scan
at the top of `renderer::fill_poly` (graphics.cpp lines 264-274). -/
def poly_bbox (p0 : point2d) (rest : List point2d) : rectangle :=
  let x_min := rest.foldl (fun acc p => min acc p.x) p0.x
  let x_max := rest.foldl (fun acc p => max acc p.x) p0.x
  let y_min := rest.foldl (fun acc p => min acc p.y) p0.y
  let y_max := rest.foldl (fun acc p => max acc p.y) p0.y
  ⟨⟨x_min, y_min⟩, ⟨x_max, y_max⟩⟩

/-- `renderer::fill_poly` (graphics.cpp line 259): conservative cull against
the polygon's containing rectangle, then move to the (possibly transformed)
first point, draw a line to every further point, close and fill.  The code
asserts `points.size() > 1`; the empty list (unreachable) maps to no-op. -/
def fill_poly (r : renderer) (points : List point2d) : renderer × List cairo_cmd :=
  match points with
  | [] => (r, [])
  | p0 :: rest =>
    if rectangle_off_screen r (poly_bbox p0 rest) then (r, [])
    else
      let first := if r.current_coordinate_system = WORLD then r.m_transform p0 else p0
      (r, cairo_cmd.move_to first.x first.y ::
          rest.map (fun p =>
            let next := if r.current_coordinate_system = WORLD then r.m_transform p else p
            cairo_cmd.line_to next.x next.y) ++
          [.close_path, .fill])

/-- `renderer::draw_arc_path` (graphics.cpp line 478): transform the center
and a point on the outline, recompute the radius, scale for the stretch
factor, and emit the cairo arc commands.  `M_PI` is passed as `pi_q`. -/
def draw_arc_path (pi_q : ℚ) (r : renderer) (center : point2d)
    (radius start_angle extent_angle stretch_factor : ℚ) (fill_flag : Bool) :
    renderer × List cairo_cmd :=
  let point_x : point2d := ⟨center.x + radius, center.y⟩
  let center := if r.current_coordinate_system = WORLD then r.m_transform center else center
  let point_x := if r.current_coordinate_system = WORLD then r.m_transform point_x else point_x
  let radius := point_x.x - center.x
  let center_x := center.x * stretch_factor
  let radius := radius * stretch_factor
  let end_angle := start_angle + extent_angle
  let arc_cmd :=
    if extent_angle ≥ 0 then
      cairo_cmd.arc_negative center_x center.y radius (-start_angle * pi_q / 180)
        (-end_angle * pi_q / 180)
    else
      cairo_cmd.arc center_x center.y radius (-start_angle * pi_q / 180)
        (-end_angle * pi_q / 180)
  (r, [cairo_cmd.save, cairo_cmd.scale (1 / stretch_factor) 1, cairo_cmd.new_path] ++
      (if fill_flag then [cairo_cmd.move_to center_x center.y] else []) ++
      [arc_cmd] ++
      (if fill_flag then [cairo_cmd.close_path] else []) ++
      [cairo_cmd.restore, if fill_flag then cairo_cmd.fill else cairo_cmd.stroke])

/-- `renderer::draw_elliptic_arc` (graphics.cpp line 325). -/
def draw_elliptic_arc (pi_q : ℚ) (r : renderer) (center : point2d)
    (radius_x radius_y start_angle extent_angle : ℚ) : renderer × List cairo_cmd :=
  if rectangle_off_screen r
      ⟨⟨center.x - radius_x, center.y - radius_y⟩, ⟨center.x + radius_x, center.y + radius_y⟩⟩ then
    (r, [])
  else
    let stretch_factor := radius_y / radius_x
    draw_arc_path pi_q r center radius_x start_angle extent_angle stretch_factor false

/-- `renderer::draw_arc` (graphics.cpp line 341). -/
def draw_arc (pi_q : ℚ) (r : renderer) (center : point2d)
    (radius start_angle extent_angle : ℚ) : renderer × List cairo_cmd :=
  if rectangle_off_screen r
      ⟨⟨center.x - radius, center.y - radius⟩, ⟨center.x + radius, center.y + radius⟩⟩ then
    (r, [])
  else draw_arc_path pi_q r center radius start_angle extent_angle 1 false

/-- `renderer::fill_elliptic_arc` (graphics.cpp line 350). -/
def fill_elliptic_arc (pi_q : ℚ) (r : renderer) (center : point2d)
    (radius_x radius_y start_angle extent_angle : ℚ) : renderer × List cairo_cmd :=
  if rectangle_off_screen r
      ⟨⟨center.x - radius_x, center.y - radius_y⟩, ⟨center.x + radius_x, center.y + radius_y⟩⟩ then
    (r, [])
  else
    let stretch_factor := radius_y / radius_x
    draw_arc_path pi_q r center radius_x start_angle extent_angle stretch_factor true

/-- `renderer::fill_arc` (graphics.cpp line 366). -/
def fill_arc (pi_q : ℚ) (r : renderer) (center : point2d)
    (radius start_angle extent_angle : ℚ) : renderer × List cairo_cmd :=
  if rectangle_off_screen r
      ⟨⟨center.x - radius, center.y - radius⟩, ⟨center.x + radius, center.y + radius⟩⟩ then
    (r, [])
  else draw_arc_path pi_q r center radius start_angle extent_angle 1 true

/-- The fields of `cairo_text_extents_t` read by graphics.cpp: the extents
cairo reports for a given text under the current font settings. -/
structure text_extents_t where
  x_bearing : ℚ
  y_bearing : ℚ
  width : ℚ
  height : ℚ
deriving DecidableEq, Repr

/-- The field of `cairo_font_extents_t` read by graphics.cpp. -/
structure font_extents_t where
  descent : ℚ
deriving DecidableEq, Repr

/-- The double constant `DBL_MAX` (largest finite IEEE-754 double,
`2 ^ 1024 - 2 ^ 971`), as an exact rational literal. -/
def DBL_MAX : ℚ :=
  179769313486231570814527423731704356798070567525844996598917476803157260780028538760589558632766878171540458953514382464234321326889464182768467546703537516986049910576551282076245490090389328944075868508455133942304583236903222948165808559332123348274797826204144723168738177180919299881250404026184124858368

/-- `renderer::draw_text(point2d, string, double, double)` (graphics.cpp
line 394).  The extents that the `cairo_text_extents` / `cairo_font_extents`
queries return for `text` are passed in as `te` and `fe`; the math-library
`cos` and `sin` are passed as functions `cos_q`, `sin_q`. -/
def draw_text_bounded (cos_q sin_q : ℚ → ℚ) (te : text_extents_t) (fe : font_extents_t)
    (r : renderer) (center : point2d) (text : String) (bound_x bound_y : ℚ) :
    renderer × List cairo_cmd :=
  if rectangle_off_screen r
      (mk_rectangle_wh ⟨center.x - bound_x / 2, center.y - bound_y / 2⟩ bound_x bound_y) then
    (r, [])
  else
    let scaled_width := te.width * r.m_camera.get_world_scale_factor.x
    let scaled_height := te.height * r.m_camera.get_world_scale_factor.y
    if scaled_width > bound_x ∨ scaled_height > bound_y then (r, [])
    else
      let center := if r.current_coordinate_system = WORLD then r.m_transform center else center
      let ref_x := center.x -
        (te.x_bearing + te.width / 2) * cos_q r.rotation_angle -
        (-fe.descent + te.height / 2) * sin_q r.rotation_angle
      let ref_y := center.y -
        (te.y_bearing + te.height / 2) * cos_q r.rotation_angle -
        (te.x_bearing + te.width / 2) * sin_q r.rotation_angle
      (r, [.save, .move_to ref_x ref_y, .rotate r.rotation_angle, .show_text text, .restore])

/-- `renderer::draw_text(point2d, string)` (graphics.cpp line 375): calls
the bounded version with no bounds, i.e. `DBL_MAX` for both. -/
def draw_text (cos_q sin_q : ℚ → ℚ) (te : text_extents_t) (fe : font_extents_t)
    (r : renderer) (center : point2d) (text : String) : renderer × List cairo_cmd :=
  draw_text_bounded cos_q sin_q te fe r center text DBL_MAX DBL_MAX

/-- The `cairo_status_t` values relevant to surface creation. -/
inductive cairo_status where
  | success
  | no_memory
  | file_not_found
  | read_error
deriving DecidableEq, Repr

/-- A `cairo_surface_t` as observed by graphics.cpp: its status and its
image width and height. -/
structure cairo_surface where
  status : cairo_status
  width : ℚ
  height : ℚ
deriving DecidableEq, Repr

/-- `renderer::draw_surface` (graphics.cpp line 570).  The C++ function
returns `void`: the middle `Option cairo_status` component models the error
information surfaced to the caller, which is always `none`. -/
def draw_surface (r : renderer) (surface : cairo_surface) (top_left : point2d) :
    renderer × Option cairo_status × List cairo_cmd :=
  if surface.status ≠ cairo_status.success then (r, none, [])
  else
    let s_width := surface.width
    let s_height := surface.height
    if rectangle_off_screen r
        (mk_rectangle_wh ⟨top_left.x, top_left.y - s_height⟩ s_width s_height) then
      (r, none, [])
    else
      let top_left :=
        if r.current_coordinate_system = WORLD then r.m_transform top_left else top_left
      (r, none, [.set_source_surface top_left.x top_left.y, .paint])

/-- `renderer::draw_png` (graphics.cpp line 554).  `png_surface` is the
surface `cairo_image_surface_create_from_png(file_path)` returns for the
given path.  The C++ function returns `void`: the middle component models
the error information surfaced to the caller, which is always `none`. -/
def draw_png (r : renderer) (png_surface : cairo_surface) (top_left : point2d) :
    renderer × Option cairo_status × List cairo_cmd :=
  if png_surface.status ≠ cairo_status.success then (r, none, [])
  else draw_surface r png_surface top_left

/-- A concrete camera for evaluation: world and screen both `[0,10] × [0,10]`,
world scale factor `(1, 1)`; the visible world is then `[0,10] × [0,10]`. -/
def demo_camera : camera :=
  ⟨⟨⟨0, 0⟩, ⟨10, 10⟩⟩, ⟨⟨0, 0⟩, ⟨10, 10⟩⟩, ⟨1, 1⟩⟩

/-- A concrete renderer in WORLD coordinates over `demo_camera`, with the
identity world-to-screen transform. -/
def demo_renderer_world : renderer :=
  ⟨id, demo_camera, WORLD, 0⟩

/-- A concrete renderer in SCREEN coordinates over `demo_camera`. -/
def demo_renderer_screen : renderer :=
  ⟨id, demo_camera, SCREEN, 0⟩

/-- A concrete renderer in WORLD coordinates with a non-trivial affine
transform, for exercising the world-to-screen mapping. -/
def demo_renderer_affine : renderer :=
  ⟨fun p => ⟨2 * p.x + 1, 3 * p.y + 2⟩, demo_camera, WORLD, 0⟩

theorem rectangle.left_le_right (r : rectangle) : r.left ≤ r.right :=
  min_le_max

theorem rectangle.bottom_le_top (r : rectangle) : r.bottom ≤ r.top :=
  min_le_max

theorem contains_iff (r : rectangle) (x y : ℚ) :
    r.contains x y = true ↔ r.left ≤ x ∧ x ≤ r.right ∧ r.bottom ≤ y ∧ y ≤ r.top := by
  unfold rectangle.contains
  split
  next hc =>
    simp only [Bool.false_eq_true, false_iff]
    rintro ⟨h1, h2, h3, h4⟩
    rcases hc with hlt | hlt | hlt | hlt <;> linarith
  next hc =>
    push_neg at hc
    simpa using hc

theorem rectangles_disjoint_iff (r1 r2 : rectangle) :
    (r1.right < r2.left ∨ r1.left > r2.right ∨ r1.top < r2.bottom ∨ r1.bottom > r2.top) ↔
    ∀ x y : ℚ, ¬(r1.contains x y = true ∧ r2.contains x y = true) := by
  constructor
  · rintro h x y ⟨h1, h2⟩
    rw [contains_iff] at h1 h2
    obtain ⟨a1, a2, a3, a4⟩ := h1
    obtain ⟨b1, b2, b3, b4⟩ := h2
    rcases h with hlt | hlt | hlt | hlt <;> linarith
  · intro h
    by_contra hn
    push_neg at hn
    obtain ⟨h1, h2, h3, h4⟩ := hn
    refine h (max r1.left r2.left) (max r1.bottom r2.bottom) ⟨?_, ?_⟩
    · rw [contains_iff]
      exact ⟨le_max_left _ _, max_le r1.left_le_right h1,
        le_max_left _ _, max_le r1.bottom_le_top h3⟩
    · rw [contains_iff]
      exact ⟨le_max_right _ _, max_le h2 r2.left_le_right,
        le_max_right _ _, max_le h4 r2.bottom_le_top⟩

theorem off_screen_of_screen_coords (r : renderer) (rect : rectangle)
    (h : r.current_coordinate_system = SCREEN) : rectangle_off_screen r rect = false := by
  simp [rectangle_off_screen, h]

theorem off_screen_of_world_coords (r : renderer) (rect : rectangle)
    (h : r.current_coordinate_system = WORLD) :
    rectangle_off_screen r rect = true ↔
      rect.right < (get_visible_world r).left ∨ rect.left > (get_visible_world r).right ∨
      rect.top < (get_visible_world r).bottom ∨ rect.bottom > (get_visible_world r).top := by
  unfold rectangle_off_screen
  rw [h]
  split_ifs <;> simp_all

/-- C1: `rectangle_off_screen` returns false whenever the coordinate system
is SCREEN; in WORLD coordinates it returns true exactly when the rectangle
satisfies one of the four strict comparisons against `get_visible_world`,
which is precisely when the rectangle is disjoint from the visible world. -/
theorem claim_C1 (r : renderer) (rect : rectangle) :
    (r.current_coordinate_system = SCREEN → rectangle_off_screen r rect = false) ∧
    (r.current_coordinate_system = WORLD →
      (rectangle_off_screen r rect = true ↔
        rect.right < (get_visible_world r).left ∨ rect.left > (get_visible_world r).right ∨
        rect.top < (get_visible_world r).bottom ∨ rect.bottom > (get_visible_world r).top) ∧
      (rectangle_off_screen r rect = true ↔
        ∀ x y : ℚ,
          ¬(rect.contains x y = true ∧ (get_visible_world r).contains x y = true))) :=
  ⟨fun h => off_screen_of_screen_coords r rect h,
   fun h => ⟨off_screen_of_world_coords r rect h,
     (off_screen_of_world_coords r rect h).trans
       (rectangles_disjoint_iff rect (get_visible_world r))⟩⟩

/-- C1 witness: at concrete inputs, the SCREEN renderer accepts and the
WORLD renderer rejects a rectangle far outside the visible world. -/
theorem claim_C1_witness :
    rectangle_off_screen demo_renderer_screen ⟨⟨100, 0⟩, ⟨101, 1⟩⟩ = false ∧
    rectangle_off_screen demo_renderer_world ⟨⟨100, 0⟩, ⟨101, 1⟩⟩ = true :=
  ⟨(claim_C1 demo_renderer_screen ⟨⟨100, 0⟩, ⟨101, 1⟩⟩).1 rfl,
   (((claim_C1 demo_renderer_world ⟨⟨100, 0⟩, ⟨101, 1⟩⟩).2 rfl).1).mpr (by decide)⟩

/-- C5: `get_visible_world` returns the camera's world rectangle enlarged by
the margin `screen.bottom_left() * world_scale_factor`: the rectangle from
`world.bottom_left() - margin` to `world.top_right() + margin`. -/
theorem claim_C5 (r : renderer) :
    get_visible_world r =
      mk_rectangle
        (r.m_camera.get_world.bottom_left -
          r.m_camera.get_screen.bottom_left * r.m_camera.get_world_scale_factor)
        (r.m_camera.get_world.top_right +
          r.m_camera.get_screen.bottom_left * r.m_camera.get_world_scale_factor) :=
  rfl

/-- C9: for any two construction points the rectangle's accessors are
ordered (left ≤ right, bottom ≤ top) so width, height and area are
nonnegative; swapping the construction points leaves left, right, bottom,
top, width, height, area, centre and contains unchanged; the
origin/width/height constructor with any (possibly negative) width and
height also yields ordered accessors and nonnegative dimensions; and the
two point orders can nevertheless compare unequal under operator==. -/
theorem claim_C9 (a b origin : point2d) (w h x y : ℚ) :
    ((mk_rectangle a b).left ≤ (mk_rectangle a b).right ∧
     (mk_rectangle a b).bottom ≤ (mk_rectangle a b).top ∧
     0 ≤ width (mk_rectangle a b) ∧ 0 ≤ height (mk_rectangle a b) ∧
     0 ≤ area (mk_rectangle a b)) ∧
    ((mk_rectangle a b).left = (mk_rectangle b a).left ∧
     (mk_rectangle a b).right = (mk_rectangle b a).right ∧
     (mk_rectangle a b).bottom = (mk_rectangle b a).bottom ∧
     (mk_rectangle a b).top = (mk_rectangle b a).top ∧
     width (mk_rectangle a b) = width (mk_rectangle b a) ∧
     height (mk_rectangle a b) = height (mk_rectangle b a) ∧
     area (mk_rectangle a b) = area (mk_rectangle b a) ∧
     centre (mk_rectangle a b) = centre (mk_rectangle b a) ∧
     (mk_rectangle a b).contains x y = (mk_rectangle b a).contains x y) ∧
    ((mk_rectangle_wh origin w h).left ≤ (mk_rectangle_wh origin w h).right ∧
     (mk_rectangle_wh origin w h).bottom ≤ (mk_rectangle_wh origin w h).top ∧
     0 ≤ width (mk_rectangle_wh origin w h) ∧ 0 ≤ height (mk_rectangle_wh origin w h) ∧
     0 ≤ area (mk_rectangle_wh origin w h)) ∧
    (∃ c d : point2d, (mk_rectangle c d).eq (mk_rectangle d c) = false) := by
  have nonneg : ∀ r : rectangle, 0 ≤ width r ∧ 0 ≤ height r ∧ 0 ≤ area r := fun r =>
    ⟨sub_nonneg.mpr r.left_le_right, sub_nonneg.mpr r.bottom_le_top,
     mul_nonneg (sub_nonneg.mpr r.left_le_right) (sub_nonneg.mpr r.bottom_le_top)⟩
  have swap_left : (mk_rectangle a b).left = (mk_rectangle b a).left := min_comm a.x b.x
  have swap_right : (mk_rectangle a b).right = (mk_rectangle b a).right := max_comm a.x b.x
  have swap_bottom : (mk_rectangle a b).bottom = (mk_rectangle b a).bottom := min_comm a.y b.y
  have swap_top : (mk_rectangle a b).top = (mk_rectangle b a).top := max_comm a.y b.y
  refine ⟨⟨rectangle.left_le_right _, rectangle.bottom_le_top _,
      (nonneg _).1, (nonneg _).2.1, (nonneg _).2.2⟩,
    ⟨swap_left, swap_right, swap_bottom, swap_top, ?_, ?_, ?_, ?_, ?_⟩,
    ⟨rectangle.left_le_right _, rectangle.bottom_le_top _,
      (nonneg _).1, (nonneg _).2.1, (nonneg _).2.2⟩,
    ⟨⟨0, 0⟩, ⟨1, 1⟩, by decide⟩⟩
  · unfold width; rw [swap_left, swap_right]
  · unfold height; rw [swap_bottom, swap_top]
  · unfold area width height; rw [swap_left, swap_right, swap_bottom, swap_top]
  · unfold centre centre_x centre_y; rw [swap_left, swap_right, swap_bottom, swap_top]
  · unfold rectangle.contains; rw [swap_left, swap_right, swap_bottom, swap_top]

/-- C10: `contains(x, y)` holds exactly when left ≤ x ≤ right and
bottom ≤ y ≤ top; boundary points (here the four corners) are contained,
and the point overload agrees with the coordinate version. -/
theorem claim_C10 (r : rectangle) (x y : ℚ) (p : point2d) :
    (r.contains x y = true ↔ r.left ≤ x ∧ x ≤ r.right ∧ r.bottom ≤ y ∧ y ≤ r.top) ∧
    r.contains_point p = r.contains p.x p.y ∧
    r.contains r.left r.bottom = true ∧ r.contains r.left r.top = true ∧
    r.contains r.right r.bottom = true ∧ r.contains r.right r.top = true := by
  refine ⟨contains_iff r x y, rfl, ?_, ?_, ?_, ?_⟩
  · exact (contains_iff r _ _).mpr ⟨le_rfl, r.left_le_right, le_rfl, r.bottom_le_top⟩
  · exact (contains_iff r _ _).mpr ⟨le_rfl, r.left_le_right, r.bottom_le_top, le_rfl⟩
  · exact (contains_iff r _ _).mpr ⟨r.left_le_right, le_rfl, le_rfl, r.bottom_le_top⟩
  · exact (contains_iff r _ _).mpr ⟨r.left_le_right, le_rfl, r.bottom_le_top, le_rfl⟩

/-- C2: every drawing primitive whose bounding rectangle is rejected by
`rectangle_off_screen` issues no drawing commands to the underlying API and
returns the renderer state unchanged. -/
theorem claim_C2 (r : renderer) (s e : point2d) (w h : ℚ) (rect : rectangle)
    (p0 : point2d) (rest : List point2d) (center : point2d)
    (radius radius_x radius_y start_angle extent_angle pi_q : ℚ)
    (surf : cairo_surface) (tl : point2d) :
    (rectangle_off_screen r ⟨s, e⟩ = true → draw_line r s e = (r, [])) ∧
    (rectangle_off_screen r ⟨s, e⟩ = true → draw_rectangle r s e = (r, [])) ∧
    (rectangle_off_screen r ⟨s, ⟨s.x + w, s.y + h⟩⟩ = true →
      draw_rectangle_wh r s w h = (r, [])) ∧
    (rectangle_off_screen r ⟨⟨rect.left, rect.bottom⟩, ⟨rect.right, rect.top⟩⟩ = true →
      draw_rectangle_rect r rect = (r, [])) ∧
    (rectangle_off_screen r ⟨s, e⟩ = true → fill_rectangle r s e = (r, [])) ∧
    (rectangle_off_screen r ⟨s, ⟨s.x + w, s.y + h⟩⟩ = true →
      fill_rectangle_wh r s w h = (r, [])) ∧
    (rectangle_off_screen r ⟨⟨rect.left, rect.bottom⟩, ⟨rect.right, rect.top⟩⟩ = true →
      fill_rectangle_rect r rect = (r, [])) ∧
    (rectangle_off_screen r (poly_bbox p0 rest) = true →
      fill_poly r (p0 :: rest) = (r, [])) ∧
    (rectangle_off_screen r
        ⟨⟨center.x - radius, center.y - radius⟩, ⟨center.x + radius, center.y + radius⟩⟩ = true →
      draw_arc pi_q r center radius start_angle extent_angle = (r, [])) ∧
    (rectangle_off_screen r
        ⟨⟨center.x - radius, center.y - radius⟩, ⟨center.x + radius, center.y + radius⟩⟩ = true →
      fill_arc pi_q r center radius start_angle extent_angle = (r, [])) ∧
    (rectangle_off_screen r
        ⟨⟨center.x - radius_x, center.y - radius_y⟩,
         ⟨center.x + radius_x, center.y + radius_y⟩⟩ = true →
      draw_elliptic_arc pi_q r center radius_x radius_y start_angle extent_angle = (r, [])) ∧
    (rectangle_off_screen r
        ⟨⟨center.x - radius_x, center.y - radius_y⟩,
         ⟨center.x + radius_x, center.y + radius_y⟩⟩ = true →
      fill_elliptic_arc pi_q r center radius_x radius_y start_angle extent_angle = (r, [])) ∧
    (rectangle_off_screen r
        (mk_rectangle_wh ⟨tl.x, tl.y - surf.height⟩ surf.width surf.height) = true →
      draw_surface r surf tl = (r, none, [])) := by
  refine ⟨?_, ?_, ?_, ?_, ?_, ?_, ?_, ?_, ?_, ?_, ?_, ?_, ?_⟩ <;> intro hoff
  · simp [draw_line, hoff]
  · simp [draw_rectangle, hoff]
  · simp [draw_rectangle_wh, hoff]
  · simp [draw_rectangle_rect, hoff]
  · simp [fill_rectangle, hoff]
  · simp [fill_rectangle_wh, hoff]
  · simp [fill_rectangle_rect, hoff]
  · simp [fill_poly, hoff]
  · simp [draw_arc, hoff]
  · simp [fill_arc, hoff]
  · simp [draw_elliptic_arc, hoff]
  · simp [fill_elliptic_arc, hoff]
  · unfold draw_surface
    split
    · rfl
    · simp [hoff]

/-- C2 witness: with the demo WORLD renderer (visible world `[0,10] ×
[0,10]`) and geometry near x = 100, every primitive is culled and emits
nothing. -/
theorem claim_C2_witness :
    draw_line demo_renderer_world ⟨100, 0⟩ ⟨101, 1⟩ = (demo_renderer_world, []) ∧
    draw_rectangle demo_renderer_world ⟨100, 0⟩ ⟨101, 1⟩ = (demo_renderer_world, []) ∧
    draw_rectangle_wh demo_renderer_world ⟨100, 0⟩ 1 1 = (demo_renderer_world, []) ∧
    draw_rectangle_rect demo_renderer_world ⟨⟨100, 0⟩, ⟨101, 1⟩⟩ = (demo_renderer_world, []) ∧
    fill_rectangle demo_renderer_world ⟨100, 0⟩ ⟨101, 1⟩ = (demo_renderer_world, []) ∧
    fill_rectangle_wh demo_renderer_world ⟨100, 0⟩ 1 1 = (demo_renderer_world, []) ∧
    fill_rectangle_rect demo_renderer_world ⟨⟨100, 0⟩, ⟨101, 1⟩⟩ = (demo_renderer_world, []) ∧
    fill_poly demo_renderer_world [⟨100, 0⟩, ⟨101, 1⟩] = (demo_renderer_world, []) ∧
    draw_arc 3 demo_renderer_world ⟨100, 0⟩ 1 0 90 = (demo_renderer_world, []) ∧
    fill_arc 3 demo_renderer_world ⟨100, 0⟩ 1 0 90 = (demo_renderer_world, []) ∧
    draw_elliptic_arc 3 demo_renderer_world ⟨100, 0⟩ 1 2 0 90 = (demo_renderer_world, []) ∧
    fill_elliptic_arc 3 demo_renderer_world ⟨100, 0⟩ 1 2 0 90 = (demo_renderer_world, []) ∧
    draw_surface demo_renderer_world ⟨cairo_status.success, 1, 1⟩ ⟨100, 0⟩ =
      (demo_renderer_world, none, []) := by
  have h := claim_C2 demo_renderer_world ⟨100, 0⟩ ⟨101, 1⟩ 1 1 ⟨⟨100, 0⟩, ⟨101, 1⟩⟩
    ⟨100, 0⟩ [⟨101, 1⟩] ⟨100, 0⟩ 1 1 2 0 90 3 ⟨cairo_status.success, 1, 1⟩ ⟨100, 0⟩
  exact ⟨h.1 (by decide), h.2.1 (by decide), h.2.2.1 (by decide), h.2.2.2.1 (by decide),
    h.2.2.2.2.1 (by decide), h.2.2.2.2.2.1 (by decide), h.2.2.2.2.2.2.1 (by decide),
    h.2.2.2.2.2.2.2.1 (by decide), h.2.2.2.2.2.2.2.2.1 (by decide),
    h.2.2.2.2.2.2.2.2.2.1 (by decide), h.2.2.2.2.2.2.2.2.2.2.1 (by decide),
    h.2.2.2.2.2.2.2.2.2.2.2.1 (by decide), h.2.2.2.2.2.2.2.2.2.2.2.2 (by decide)⟩

/-- C4: for a primitive that passes the cull, every defining point is
mapped through `m_transform` before being handed to the drawing API when
the coordinate system is WORLD, and passed through unchanged when it is
SCREEN (shown for draw_line, draw_rectangle_path and fill_poly). -/
theorem claim_C4 (r : renderer) (s e p0 : point2d) (rest : List point2d) (fill_flag : Bool) :
    (r.current_coordinate_system = WORLD →
      (rectangle_off_screen r ⟨s, e⟩ = false →
        draw_line r s e =
          (r, [cairo_cmd.move_to (r.m_transform s).x (r.m_transform s).y,
               cairo_cmd.line_to (r.m_transform e).x (r.m_transform e).y,
               cairo_cmd.stroke])) ∧
      draw_rectangle_path r s e fill_flag =
        (r, [cairo_cmd.move_to (r.m_transform s).x (r.m_transform s).y,
             cairo_cmd.line_to (r.m_transform s).x (r.m_transform e).y,
             cairo_cmd.line_to (r.m_transform e).x (r.m_transform e).y,
             cairo_cmd.line_to (r.m_transform e).x (r.m_transform s).y,
             cairo_cmd.close_path,
             if fill_flag then cairo_cmd.fill else cairo_cmd.stroke]) ∧
      (rectangle_off_screen r (poly_bbox p0 rest) = false →
        fill_poly r (p0 :: rest) =
          (r, cairo_cmd.move_to (r.m_transform p0).x (r.m_transform p0).y ::
              rest.map (fun p =>
                cairo_cmd.line_to (r.m_transform p).x (r.m_transform p).y) ++
              [cairo_cmd.close_path, cairo_cmd.fill]))) ∧
    (r.current_coordinate_system = SCREEN →
      draw_line r s e =
        (r, [cairo_cmd.move_to s.x s.y, cairo_cmd.line_to e.x e.y, cairo_cmd.stroke]) ∧
      draw_rectangle_path r s e fill_flag =
        (r, [cairo_cmd.move_to s.x s.y, cairo_cmd.line_to s.x e.y,
             cairo_cmd.line_to e.x e.y, cairo_cmd.line_to e.x s.y,
             cairo_cmd.close_path,
             if fill_flag then cairo_cmd.fill else cairo_cmd.stroke]) ∧
      fill_poly r (p0 :: rest) =
        (r, cairo_cmd.move_to p0.x p0.y ::
            rest.map (fun p => cairo_cmd.line_to p.x p.y) ++
            [cairo_cmd.close_path, cairo_cmd.fill])) := by
  constructor
  · intro hw
    refine ⟨?_, ?_, ?_⟩
    · intro hoff
      simp [draw_line, hoff, hw]
    · simp [draw_rectangle_path, hw]
    · intro hoff
      simp [fill_poly, hoff, hw]
  · intro hs
    refine ⟨?_, ?_, ?_⟩
    · simp [draw_line, rectangle_off_screen, hs]
    · simp [draw_rectangle_path, hs]
    · simp [fill_poly, rectangle_off_screen, hs]

/-- C4 witness: an on-screen line under a WORLD renderer with an affine
transform, and under a SCREEN renderer. -/
theorem claim_C4_witness :
    draw_line demo_renderer_affine ⟨1, 1⟩ ⟨2, 2⟩ =
      (demo_renderer_affine,
       [cairo_cmd.move_to (demo_renderer_affine.m_transform ⟨1, 1⟩).x
          (demo_renderer_affine.m_transform ⟨1, 1⟩).y,
        cairo_cmd.line_to (demo_renderer_affine.m_transform ⟨2, 2⟩).x
          (demo_renderer_affine.m_transform ⟨2, 2⟩).y,
        cairo_cmd.stroke]) ∧
    draw_line demo_renderer_screen ⟨1, 1⟩ ⟨2, 2⟩ =
      (demo_renderer_screen,
       [cairo_cmd.move_to 1 1, cairo_cmd.line_to 2 2, cairo_cmd.stroke]) :=
  ⟨((claim_C4 demo_renderer_affine ⟨1, 1⟩ ⟨2, 2⟩ ⟨1, 1⟩ [] true).1 rfl).1 (by decide),
   ((claim_C4 demo_renderer_screen ⟨1, 1⟩ ⟨2, 2⟩ ⟨1, 1⟩ [] true).2 rfl).1⟩

/-- C3: `draw_text` with bounds draws nothing when the text extent width
scaled by the camera's world scale factor exceeds bound_x or the scaled
extent height exceeds bound_y (rotation is not consulted); the no-bounds
overload equals the bounded overload at DBL_MAX bounds, and whenever the
scaled extents are at most DBL_MAX (true of any finite double) its bound
check never suppresses the text: if the off-screen cull passes, the text is
drawn. -/
theorem claim_C3 (cos_q sin_q : ℚ → ℚ) (te : text_extents_t) (fe : font_extents_t)
    (r : renderer) (center : point2d) (text : String) (bound_x bound_y : ℚ) :
    (te.width * r.m_camera.get_world_scale_factor.x > bound_x ∨
     te.height * r.m_camera.get_world_scale_factor.y > bound_y →
      draw_text_bounded cos_q sin_q te fe r center text bound_x bound_y = (r, [])) ∧
    draw_text cos_q sin_q te fe r center text =
      draw_text_bounded cos_q sin_q te fe r center text DBL_MAX DBL_MAX ∧
    (te.width * r.m_camera.get_world_scale_factor.x ≤ DBL_MAX →
     te.height * r.m_camera.get_world_scale_factor.y ≤ DBL_MAX →
     rectangle_off_screen r
        (mk_rectangle_wh ⟨center.x - DBL_MAX / 2, center.y - DBL_MAX / 2⟩ DBL_MAX DBL_MAX) =
       false →
      cairo_cmd.show_text text ∈ (draw_text cos_q sin_q te fe r center text).2) := by
  refine ⟨?_, rfl, ?_⟩
  · intro hb
    by_cases hoff : rectangle_off_screen r
        (mk_rectangle_wh ⟨center.x - bound_x / 2, center.y - bound_y / 2⟩ bound_x bound_y) = true
    · simp [draw_text_bounded, hoff]
    · simp only [Bool.not_eq_true] at hoff
      simp only [draw_text_bounded, hoff, Bool.false_eq_true, if_false]
      rw [if_pos hb]
  · intro h1 h2 hoff
    have hcond : ¬(te.width * r.m_camera.get_world_scale_factor.x > DBL_MAX ∨
        te.height * r.m_camera.get_world_scale_factor.y > DBL_MAX) :=
      not_or.mpr ⟨not_lt.mpr h1, not_lt.mpr h2⟩
    simp [draw_text, draw_text_bounded, hoff, hcond]

/-- C3 witness: a text of scaled extent 5 × 5 is suppressed by bounds
1 × 1, while the no-bounds overload draws it. -/
theorem claim_C3_witness :
    draw_text_bounded id id ⟨0, 0, 5, 5⟩ ⟨0⟩ demo_renderer_world ⟨1, 1⟩ "ezgl" 1 1 =
      (demo_renderer_world, []) ∧
    cairo_cmd.show_text "ezgl" ∈
      (draw_text id id ⟨0, 0, 5, 5⟩ ⟨0⟩ demo_renderer_world ⟨1, 1⟩ "ezgl").2 := by
  have h := claim_C3 id id ⟨0, 0, 5, 5⟩ ⟨0⟩ demo_renderer_world ⟨1, 1⟩ "ezgl" 1 1
  exact ⟨h.1 (by decide), h.2.2 (by decide) (by decide) (by decide)⟩

/-- C6 (counterexample): at a PNG surface whose load reports READ_ERROR,
`draw_png` surfaces no error to the caller — its (void) result carries no
status and it silently draws nothing — contradicting the claim that the
error is surfaced rather than absorbed. -/
theorem claim_C6_counterexample :
    (cairo_surface.mk cairo_status.read_error 8 8).status ≠ cairo_status.success ∧
    draw_png demo_renderer_world (cairo_surface.mk cairo_status.read_error 8 8) ⟨1, 1⟩ =
      (demo_renderer_world, none, []) :=
  ⟨by decide, rfl⟩

/-- C6 (amended): when the underlying PNG load or surface reports a
non-success status, `draw_png` and `draw_surface` absorb the error: they
return without issuing any drawing command and surface nothing to the
caller. -/
theorem claim_C6_amended (surface : cairo_surface) (r : renderer) (top_left : point2d)
    (h : surface.status ≠ cairo_status.success) :
    draw_png r surface top_left = (r, none, []) ∧
    draw_surface r surface top_left = (r, none, []) := by
  constructor
  · unfold draw_png
    rw [if_pos h]
  · unfold draw_surface
    rw [if_pos h]

/-- C6 witness: the amended claim at a concrete bad surface. -/
theorem claim_C6_witness :
    draw_png demo_renderer_world ⟨cairo_status.file_not_found, 8, 8⟩ ⟨1, 1⟩ =
      (demo_renderer_world, none, []) ∧
    draw_surface demo_renderer_world ⟨cairo_status.file_not_found, 8, 8⟩ ⟨1, 1⟩ =
      (demo_renderer_world, none, []) :=
  claim_C6_amended ⟨cairo_status.file_not_found, 8, 8⟩ demo_renderer_world ⟨1, 1⟩ (by decide)

/-- C7: a newly constructed renderer has rotation angle 0; after
`set_text_rotation(degrees)` the stored angle is `-degrees * pi / 180`;
and this stored angle is the one `draw_text` uses both in the
reference-point computation (through cos and sin) and as the argument of
the rotation it applies to the drawn text. -/
theorem claim_C7 (transform : point2d → point2d) (cam : camera) (pi_q degrees : ℚ)
    (cos_q sin_q : ℚ → ℚ) (te : text_extents_t) (fe : font_extents_t)
    (r : renderer) (center : point2d) (text : String) (bound_x bound_y : ℚ) :
    (renderer_new transform cam).rotation_angle = 0 ∧
    (set_text_rotation pi_q r degrees).rotation_angle = -degrees * pi_q / 180 ∧
    (rectangle_off_screen r
        (mk_rectangle_wh ⟨center.x - bound_x / 2, center.y - bound_y / 2⟩ bound_x bound_y) =
       false →
     ¬(te.width * r.m_camera.get_world_scale_factor.x > bound_x ∨
       te.height * r.m_camera.get_world_scale_factor.y > bound_y) →
      draw_text_bounded cos_q sin_q te fe r center text bound_x bound_y =
        (r, [cairo_cmd.save,
             cairo_cmd.move_to
               ((if r.current_coordinate_system = WORLD then r.m_transform center
                 else center).x -
                 (te.x_bearing + te.width / 2) * cos_q r.rotation_angle -
                 (-fe.descent + te.height / 2) * sin_q r.rotation_angle)
               ((if r.current_coordinate_system = WORLD then r.m_transform center
                 else center).y -
                 (te.y_bearing + te.height / 2) * cos_q r.rotation_angle -
                 (te.x_bearing + te.width / 2) * sin_q r.rotation_angle),
             cairo_cmd.rotate r.rotation_angle,
             cairo_cmd.show_text text,
             cairo_cmd.restore])) := by
  refine ⟨rfl, rfl, ?_⟩
  intro hoff hb
  simp [draw_text_bounded, hoff, hb]

/-- C7 witness: the drawn-text conjunct at a concrete renderer, text
extents 5 × 5 and bounds 20 × 20. -/
theorem claim_C7_witness :
    draw_text_bounded id id ⟨0, 0, 5, 5⟩ ⟨0⟩ demo_renderer_world ⟨1, 1⟩ "ezgl" 20 20 =
      (demo_renderer_world,
       [cairo_cmd.save,
        cairo_cmd.move_to
          ((if demo_renderer_world.current_coordinate_system = WORLD then
              demo_renderer_world.m_transform ⟨1, 1⟩
            else ⟨1, 1⟩).x -
            ((0 : ℚ) + 5 / 2) * id demo_renderer_world.rotation_angle -
            (-(0 : ℚ) + 5 / 2) * id demo_renderer_world.rotation_angle)
          ((if demo_renderer_world.current_coordinate_system = WORLD then
              demo_renderer_world.m_transform ⟨1, 1⟩
            else ⟨1, 1⟩).y -
            ((0 : ℚ) + 5 / 2) * id demo_renderer_world.rotation_angle -
            ((0 : ℚ) + 5 / 2) * id demo_renderer_world.rotation_angle),
        cairo_cmd.rotate demo_renderer_world.rotation_angle,
        cairo_cmd.show_text "ezgl",
        cairo_cmd.restore]) :=
  (claim_C7 id demo_camera 3 90 id id ⟨0, 0, 5, 5⟩ ⟨0⟩ demo_renderer_world ⟨1, 1⟩
    "ezgl" 20 20).2.2 (by decide) (by decide)

end ezgl
